import Mathlib

/-
Shallow embedding of the navigation / scroll-index controller of
src/menu/menu_driver.c (RetroArch menu driver indirection layer).

Modelling conventions:
* `size_t` values are `Nat` with explicit reduction mod 2^64 where the C code
  can wrap (the `menu_list_size - 1` subtractions and the `selection + speed`
  addition); `unsigned` storage truncates mod 2^32.
* The global mutable state (`menu_driver_selection_ptr`, `scroll_index_list`,
  `scroll_index_size`, `scroll_acceleration`, the pending flags and the active
  driver binding `menu_driver_ctx`) is gathered in `MenuGlobals`.
* The active driver capability table is `Option MenuCtx`: `none` models a NULL
  `menu_driver_ctx`.  Each optional hook is a presence flag; invoking a hook is
  recorded in the result (hooks are opaque external callbacks of the concrete
  UI backends, which are outside this file; they do not mutate the state
  modelled here).
* Undefined behaviour (dereferencing a NULL `menu_driver_ctx`, reading or
  writing the 57-slot `scroll_index_list` array out of bounds) is modelled as
  `none` in an `Option` result.
* `menu_entries_get_size()` (the entries store) and the wraparound setting are
  external inputs, passed as parameters.
-/

/-- 2^64: modulus of `size_t` arithmetic. -/
def SIZE_T_MOD : Nat := 2 ^ 64

/-- Largest `size_t` value, 2^64 - 1. -/
def SIZE_MAX : Nat := 2 ^ 64 - 1

/-- 2^32: modulus of `unsigned` arithmetic. -/
def UINT_MOD : Nat := 2 ^ 32

/-- `#define SCROLL_INDEX_SIZE (2 * (26 + 2) + 1)` — the table bound, which
evaluates to 57. -/
def SCROLL_INDEX_SIZE : Nat := 2 * (26 + 2) + 1

/-- `size_t` subtraction of 1: `n - 1` for `n > 0`, wraps to `SIZE_MAX` at 0
(faithful for every `n < 2^64`). -/
def sizeSub1 (n : Nat) : Nat := if n = 0 then SIZE_MAX else n - 1

/-- Names of the driver navigation hooks that the modelled code can invoke. -/
inductive Hook
  | nav_set
  | nav_clear
  | nav_inc
  | nav_dec
  | nav_last
  | nav_ascend
  | nav_descend
deriving DecidableEq, Repr

/-- Presence flags of the optional entries of the active driver's capability
table (`menu_ctx_driver_t`) that the modelled code consults. -/
structure MenuCtx where
  has_iterate : Bool
  has_nav_set : Bool
  has_nav_clear : Bool
  has_nav_inc : Bool
  has_nav_dec : Bool
  has_nav_last : Bool
  has_nav_ascend : Bool
  has_nav_descend : Bool
deriving DecidableEq, Repr

/-- The file-scope mutable state of menu_driver.c used by the navigation
controller.  `scroll_index_list` is the physical 57-slot array (length
`SCROLL_INDEX_SIZE` in every well-formed state). -/
structure MenuGlobals where
  ctx : Option MenuCtx
  selection_ptr : Nat
  scroll_index_list : List Nat
  scroll_index_size : Nat
  scroll_acceleration : Nat
  pending_quick_menu : Bool
  pending_quit : Bool
  pending_shutdown : Bool
deriving DecidableEq, Repr

/-- Result of one `menu_driver_ctl` navigation request: the C return value,
the new global state, and the driver hooks invoked (in order). -/
structure CtlResult where
  ret : Bool
  st : MenuGlobals
  hooks : List Hook
deriving DecidableEq, Repr

/-- `if (present) hook(...)`: the hook-invocation record. -/
def hookIf (b : Bool) (h : Hook) : List Hook := if b then [h] else []

/-- `menu_driver_navigation_set`: dereferences `menu_driver_ctx`
unconditionally (`if (menu_driver_ctx->navigation_set) ...`), so a NULL
binding is undefined behaviour (`none`). -/
def menu_driver_navigation_set (g : MenuGlobals) : Option (List Hook) :=
  match g.ctx with
  | none => none
  | some c => some (hookIf c.has_nav_set Hook.nav_set)

/-- `MENU_NAVIGATION_CTL_CLEAR`: selection := 0, `menu_driver_navigation_set`,
then — when the `pending_push` pointer is non-NULL — the `navigation_clear`
hook (another unconditional `menu_driver_ctx` dereference). -/
def navigation_clear (g : MenuGlobals) (pending_push : Option Bool) :
    Option CtlResult :=
  let g1 := { g with selection_ptr := 0 }
  match menu_driver_navigation_set g1 with
  | none => none
  | some h1 =>
    match pending_push with
    | none => some ⟨true, g1, h1⟩
    | some _ =>
      match g1.ctx with
      | none => none
      | some c => some ⟨true, g1, h1 ++ hookIf c.has_nav_clear Hook.nav_clear⟩

/-- `MENU_NAVIGATION_CTL_SET_LAST`: selection := `menu_list_size - 1` in
`size_t` arithmetic, then the `navigation_set_last` hook check (unconditional
`menu_driver_ctx` dereference). -/
def navigation_set_last (menu_list_size : Nat) (g : MenuGlobals) :
    Option CtlResult :=
  let g1 := { g with selection_ptr := sizeSub1 menu_list_size }
  match g1.ctx with
  | none => none
  | some c => some ⟨true, g1, hookIf c.has_nav_last Hook.nav_last⟩

/-- `MENU_NAVIGATION_CTL_INCREMENT` with `scroll_speed = s`.  Mirrors the C
control flow: the boundary guard (with `menu_list_size - 1` computed in
`size_t`), the in-range advance, the wraparound clear, the clamp to last, and
the final unconditional `menu_driver_ctx->navigation_increment` check. -/
def navigation_increment (wraparound_enable : Bool) (menu_list_size s : Nat)
    (g : MenuGlobals) : Option CtlResult :=
  if sizeSub1 menu_list_size ≤ g.selection_ptr ∧ wraparound_enable = false then
    some ⟨false, g, []⟩
  else
    let inner : Option (MenuGlobals × List Hook) :=
      if (g.selection_ptr + s) % SIZE_T_MOD < menu_list_size then
        let g1 := { g with
          selection_ptr := (g.selection_ptr + s) % SIZE_T_MOD }
        match menu_driver_navigation_set g1 with
        | none => none
        | some h => some (g1, h)
      else if wraparound_enable = true then
        match navigation_clear g (some false) with
        | none => none
        | some r => some (r.st, r.hooks)
      else if 0 < menu_list_size then
        match navigation_set_last menu_list_size g with
        | none => none
        | some r => some (r.st, r.hooks)
      else
        some (g, [])
    match inner with
    | none => none
    | some (g1, h) =>
      match g1.ctx with
      | none => none
      | some c => some ⟨true, g1, h ++ hookIf c.has_nav_inc Hook.nav_inc⟩

/-- `MENU_NAVIGATION_CTL_DECREMENT` with `scroll_speed = s`. -/
def navigation_decrement (wraparound_enable : Bool) (menu_list_size s : Nat)
    (g : MenuGlobals) : Option CtlResult :=
  if g.selection_ptr = 0 ∧ wraparound_enable = false then
    some ⟨false, g, []⟩
  else
    let idx : Nat :=
      if s ≤ g.selection_ptr then g.selection_ptr - s
      else if wraparound_enable = true then sizeSub1 menu_list_size
      else 0
    let g1 := { g with selection_ptr := idx }
    match menu_driver_navigation_set g1 with
    | none => none
    | some h =>
      match g1.ctx with
      | none => none
      | some c => some ⟨true, g1, h ++ hookIf c.has_nav_dec Hook.nav_dec⟩

/-- One step per remaining iteration of the forward scan of
`MENU_NAVIGATION_CTL_ASCEND_ALPHABET`; the first argument counts the
iterations left (`size - 1 - i`), so the recursion is structural and the
function evaluates in the kernel.  `none` models an out-of-bounds read of the
physical array in the loop test. -/
def ascendScanAux (l : List Nat) (sel : Nat) : Nat → Nat → Option Nat
  | 0, i => some i
  | k + 1, i =>
    match l.get? (i + 1) with
    | none => none
    | some v => if v ≤ sel then ascendScanAux l sel k (i + 1) else some i

/-- The forward scan of `MENU_NAVIGATION_CTL_ASCEND_ALPHABET`:
`while (i < scroll_index_size - 1 && scroll_index_list[i + 1] <= sel) i++`.
The loop runs at most `size - 1 - i` times, which is the fuel passed to
`ascendScanAux`; the loop guard `i < size - 1` is exactly `size - 1 - i > 0`. -/
def ascendScan (l : List Nat) (size sel i : Nat) : Option Nat :=
  ascendScanAux l sel (size - 1 - i) i

/-- `MENU_NAVIGATION_CTL_ASCEND_ALPHABET`.  Note the C code reads
`scroll_index_list[i + 1]` with the scan's final `i`, which is the slot just
past the logical table when the scan ran off its end. -/
def navigation_ascend_alphabet (menu_list_size : Nat) (g : MenuGlobals) :
    Option CtlResult :=
  if g.scroll_index_size = 0 then
    some ⟨false, g, []⟩
  else
    match g.scroll_index_list.get? (g.scroll_index_size - 1) with
    | none => none
    | some last =>
      if g.selection_ptr = last then
        let g1 := { g with selection_ptr := sizeSub1 menu_list_size }
        match g1.ctx with
        | none => none
        | some c => some ⟨true, g1, hookIf c.has_nav_ascend Hook.nav_ascend⟩
      else
        match ascendScan g.scroll_index_list g.scroll_index_size
            g.selection_ptr 0 with
        | none => none
        | some i =>
          match g.scroll_index_list.get? (i + 1) with
          | none => none
          | some v =>
            let s1 := if menu_list_size ≤ v then sizeSub1 menu_list_size
                      else v
            let g1 := { g with selection_ptr := s1 }
            match g1.ctx with
            | none => none
            | some c =>
              some ⟨true, g1, hookIf c.has_nav_ascend Hook.nav_ascend⟩

/-- The backward scan of `MENU_NAVIGATION_CTL_DESCEND_ALPHABET`:
`while (i && scroll_index_list[i - 1] >= sel) i--`, structural in `i`. -/
def descendScan (l : List Nat) (sel : Nat) : Nat → Option Nat
  | 0 => some 0
  | i + 1 =>
    match l.get? i with
    | none => none
    | some v => if sel ≤ v then descendScan l sel i else some (i + 1)

/-- `MENU_NAVIGATION_CTL_DESCEND_ALPHABET`. -/
def navigation_descend_alphabet (g : MenuGlobals) : Option CtlResult :=
  if g.scroll_index_size = 0 then
    some ⟨false, g, []⟩
  else if g.selection_ptr = 0 then
    some ⟨false, g, []⟩
  else
    match descendScan g.scroll_index_list g.selection_ptr
        (g.scroll_index_size - 1) with
    | none => none
    | some i =>
      let after : Option MenuGlobals :=
        if 0 < i then
          match g.scroll_index_list.get? (i - 1) with
          | none => none
          | some v => some { g with selection_ptr := v }
        else
          some g
      match after with
      | none => none
      | some g1 =>
        match g1.ctx with
        | none => none
        | some c => some ⟨true, g1, hookIf c.has_nav_descend Hook.nav_descend⟩

/-- `MENU_NAVIGATION_CTL_ADD_SCROLL_INDEX`:
`scroll_index_list[scroll_index_size++] = *sel` with no capacity check; a
store at an index at or past the physical array length is an out-of-bounds
write (`none`). -/
def add_scroll_index (g : MenuGlobals) (sel : Option Nat) : Option CtlResult :=
  match sel with
  | none => some ⟨false, g, []⟩
  | some v =>
    if g.scroll_index_size < g.scroll_index_list.length then
      some ⟨true,
        { g with
          scroll_index_list := g.scroll_index_list.set g.scroll_index_size v,
          scroll_index_size := g.scroll_index_size + 1 }, []⟩
    else
      none

/-- `MENU_NAVIGATION_CTL_SET_SCROLL_ACCEL`:
`scroll_acceleration = (unsigned)(*sel)` — truncation mod 2^32; NULL data
returns false without mutation. -/
def navigation_set_scroll_accel (g : MenuGlobals) (sel : Option Nat) :
    Bool × MenuGlobals :=
  match sel with
  | none => (false, g)
  | some v => (true, { g with scroll_acceleration := v % UINT_MOD })

/-- `MENU_NAVIGATION_CTL_GET_SCROLL_ACCEL`: `*sel = scroll_acceleration`;
NULL data returns false.  The middle component is the value written through
the pointer. -/
def navigation_get_scroll_accel (g : MenuGlobals) (data_is_null : Bool) :
    Bool × Option Nat × MenuGlobals :=
  if data_is_null then (false, none, g)
  else (true, some g.scroll_acceleration, g)

/-- `menu_driver_iterate`.  External effects that do not touch the modelled
state (stack flush, displaylist push) are elided; `cmd_event_quit_ok` is the
return value of `command_event(CMD_EVENT_QUIT, NULL)` and `it_ret` the return
value of the driver's `iterate` callback, both external inputs. -/
def menu_driver_iterate (cmd_event_quit_ok : Bool) (it_ret : Int)
    (g : MenuGlobals) : Bool × MenuGlobals :=
  if g.pending_quick_menu = true then
    let g1 := { g with pending_quick_menu := false }
    if g1.pending_quit = true then
      (false, { g1 with pending_quit := false })
    else
      (true, g1)
  else if g.pending_quit = true then
    (false, { g with pending_quit := false })
  else if g.pending_shutdown = true then
    let g1 := { g with pending_shutdown := false }
    if cmd_event_quit_ok = false then (false, g1) else (true, g1)
  else
    match g.ctx with
    | none => (false, g)
    | some c =>
      if c.has_iterate = false then (false, g)
      else if it_ret = -1 then (false, g)
      else (true, g)

/-- A navigation request of the increment/decrement kind, with its
`scroll_speed` payload. -/
inductive NavOp
  | inc (s : Nat)
  | dec (s : Nat)
deriving DecidableEq, Repr

/-- Run one increment/decrement request, keeping only the state. -/
def runNavOp (wraparound_enable : Bool) (menu_list_size : Nat) (op : NavOp)
    (g : MenuGlobals) : Option MenuGlobals :=
  match op with
  | NavOp.inc s =>
    Option.map CtlResult.st (navigation_increment wraparound_enable
      menu_list_size s g)
  | NavOp.dec s =>
    Option.map CtlResult.st (navigation_decrement wraparound_enable
      menu_list_size s g)

/-- Run a finite sequence of increment/decrement requests. -/
def runNavOps (wraparound_enable : Bool) (menu_list_size : Nat)
    (g : MenuGlobals) : List NavOp → Option MenuGlobals
  | [] => some g
  | op :: ops =>
    match runNavOp wraparound_enable menu_list_size op g with
    | none => none
    | some g1 => runNavOps wraparound_enable menu_list_size g1 ops

/-- The first `size` slots of the physical table are non-decreasing. -/
def TableSorted (l : List Nat) (size : Nat) : Prop :=
  ∀ j, j < size → ∀ i, i < j → l.getD i 0 ≤ l.getD j 0

instance (l : List Nat) (size : Nat) : Decidable (TableSorted l size) := by
  unfold TableSorted
  infer_instance

/-- A capability table with every optional hook absent. -/
def ctxNoHooks : MenuCtx := ⟨false, false, false, false, false, false, false, false⟩

/-- A capability table with every optional hook present. -/
def ctxAllHooks : MenuCtx := ⟨true, true, true, true, true, true, true, true⟩

/-- A fresh physical scroll-index array: 55 zero slots. -/
def zeroTable : List Nat := List.replicate SCROLL_INDEX_SIZE 0


/-- The concrete scroll-index table of the spec scenario: positions
0,10,...,90 in the first ten slots of the 57-slot physical array. -/
def scrollTable10 : List Nat :=
  [0, 10, 20, 30, 40, 50, 60, 70, 80, 90] ++ List.replicate 47 0

/-- State with no driver bound (`menu_driver_ctx == NULL`) and selection 0. -/
def gNullCtx : MenuGlobals := ⟨none, 0, zeroTable, 0, 0, false, false, false⟩

/-- Bound driver with no optional hooks, scroll index holding 55 entries
(all zero, a legal non-decreasing table). -/
def gIndex55 : MenuGlobals :=
  ⟨some ctxNoHooks, 0, zeroTable, 55, 0, false, false, false⟩

/-- Bound driver, scroll index full at its physical capacity of 57. -/
def gIndex57 : MenuGlobals :=
  ⟨some ctxNoHooks, 0, zeroTable, 57, 0, false, false, false⟩

/-- Bound driver, single-entry scroll index table [0], selection 0. -/
def gTable1 : MenuGlobals :=
  ⟨some ctxNoHooks, 0, zeroTable, 1, 0, false, false, false⟩

/-- The spec scenario state: list size 100 (passed at the call), table
0,10,...,90 of size 10, selection 15, a bound hookless driver. -/
def gScenario : MenuGlobals :=
  ⟨some ctxNoHooks, 15, scrollTable10, 10, 0, false, false, false⟩

/-- Bound hookless driver, selection 5, for the empty-list SET_LAST run. -/
def gSel5 : MenuGlobals :=
  ⟨some ctxNoHooks, 5, zeroTable, 0, 0, false, false, false⟩

/-- Bound driver with all hooks present, selection 0, for the empty-list
increment run. -/
def gAllHooks : MenuGlobals :=
  ⟨some ctxAllHooks, 0, zeroTable, 0, 0, false, false, false⟩

/-- Bound hookless driver, selection 3, list of size 4 at the call sites. -/
def gSel3 : MenuGlobals :=
  ⟨some ctxNoHooks, 3, zeroTable, 0, 0, false, false, false⟩

/-- Bound hookless driver, selection 0. -/
def gSel0 : MenuGlobals :=
  ⟨some ctxNoHooks, 0, zeroTable, 0, 0, false, false, false⟩

/-- Pending quit and pending shutdown raised together, quick-menu not. -/
def gQuitShutdown : MenuGlobals :=
  ⟨some ctxNoHooks, 0, zeroTable, 0, 0, false, true, true⟩

/-- Helper: with a bound driver and a non-empty list, one INCREMENT never
crashes, keeps the selection below the list size, and leaves the binding. -/
theorem increment_st (wrap : Bool) (N s : Nat) (g : MenuGlobals) (c : MenuCtx)
    (hc : g.ctx = some c) (hN : 0 < N) (hsel : g.selection_ptr < N) :
    ∃ r, navigation_increment wrap N s g = some r ∧
      r.st.selection_ptr < N ∧ r.st.ctx = some c := by
  by_cases hg : sizeSub1 N ≤ g.selection_ptr ∧ wrap = false
  · refine ⟨⟨false, g, []⟩, ?_, hsel, hc⟩
    rw [navigation_increment, if_pos hg]
  · rw [navigation_increment, if_neg hg]
    by_cases hlt : (g.selection_ptr + s) % SIZE_T_MOD < N
    · refine ⟨⟨true, { g with selection_ptr := (g.selection_ptr + s) % SIZE_T_MOD },
        hookIf c.has_nav_set Hook.nav_set ++ hookIf c.has_nav_inc Hook.nav_inc⟩, ?_, hlt, hc⟩
      simp only [menu_driver_navigation_set, hc, if_pos hlt]
    · by_cases hw : wrap = true
      · refine ⟨⟨true, { g with selection_ptr := 0 },
          (hookIf c.has_nav_set Hook.nav_set ++ hookIf c.has_nav_clear Hook.nav_clear) ++
            hookIf c.has_nav_inc Hook.nav_inc⟩, ?_, hN, hc⟩
        simp only [navigation_clear, menu_driver_navigation_set, hc,
          if_neg hlt, if_pos hw]
      · have hN2 : sizeSub1 N < N := by
          rw [sizeSub1, if_neg (by omega : ¬ N = 0)]; omega
        refine ⟨⟨true, { g with selection_ptr := sizeSub1 N },
          hookIf c.has_nav_last Hook.nav_last ++ hookIf c.has_nav_inc Hook.nav_inc⟩,
          ?_, hN2, hc⟩
        simp only [navigation_set_last, hc, if_neg hlt, if_neg hw, if_pos hN]

/-- Helper: with a bound driver and a non-empty list, one DECREMENT never
crashes, keeps the selection below the list size, and leaves the binding. -/
theorem decrement_st (wrap : Bool) (N s : Nat) (g : MenuGlobals) (c : MenuCtx)
    (hc : g.ctx = some c) (hN : 0 < N) (hsel : g.selection_ptr < N) :
    ∃ r, navigation_decrement wrap N s g = some r ∧
      r.st.selection_ptr < N ∧ r.st.ctx = some c := by
  by_cases hg : g.selection_ptr = 0 ∧ wrap = false
  · refine ⟨⟨false, g, []⟩, ?_, hsel, hc⟩
    rw [navigation_decrement, if_pos hg]
  · rw [navigation_decrement, if_neg hg]
    by_cases hs : s ≤ g.selection_ptr
    · refine ⟨⟨true, { g with selection_ptr := g.selection_ptr - s },
        hookIf c.has_nav_set Hook.nav_set ++ hookIf c.has_nav_dec Hook.nav_dec⟩,
        ?_, Nat.lt_of_le_of_lt (Nat.sub_le _ _) hsel, hc⟩
      simp only [menu_driver_navigation_set, hc, if_pos hs]
    · by_cases hw : wrap = true
      · have hN2 : sizeSub1 N < N := by
          rw [sizeSub1, if_neg (by omega : ¬ N = 0)]; omega
        refine ⟨⟨true, { g with selection_ptr := sizeSub1 N },
          hookIf c.has_nav_set Hook.nav_set ++ hookIf c.has_nav_dec Hook.nav_dec⟩,
          ?_, hN2, hc⟩
        simp only [menu_driver_navigation_set, hc, if_neg hs, if_pos hw]
      · refine ⟨⟨true, { g with selection_ptr := 0 },
          hookIf c.has_nav_set Hook.nav_set ++ hookIf c.has_nav_dec Hook.nav_dec⟩,
          ?_, hN, hc⟩
        simp only [menu_driver_navigation_set, hc, if_neg hs, if_neg hw]

/-- C2: for every list size N > 0, every initial selection below N, every
wraparound setting and every finite sequence of INCREMENT / DECREMENT
requests with arbitrary scroll speeds (issued with a driver bound, the state
the C code navigates in), the run completes and the selection position stays
below N — hence, applied to every prefix, after every call of the
sequence. -/
theorem c2_navigation_position_invariant (wrap : Bool) (N : Nat)
    (ops : List NavOp) (g : MenuGlobals) (c : MenuCtx)
    (hc : g.ctx = some c) (hN : 0 < N) (hsel : g.selection_ptr < N) :
    ∃ gf, runNavOps wrap N g ops = some gf ∧ gf.selection_ptr < N := by
  induction ops generalizing g with
  | nil => exact ⟨g, rfl, hsel⟩
  | cons op ops ih =>
    cases op with
    | inc s =>
      obtain ⟨r, hr, hp, hcx⟩ := increment_st wrap N s g c hc hN hsel
      obtain ⟨gf, hgf, hfp⟩ := ih r.st hcx hp
      refine ⟨gf, ?_, hfp⟩
      simp only [runNavOps, runNavOp, hr, Option.map_some]
      exact hgf
    | dec s =>
      obtain ⟨r, hr, hp, hcx⟩ := decrement_st wrap N s g c hc hN hsel
      obtain ⟨gf, hgf, hfp⟩ := ih r.st hcx hp
      refine ⟨gf, ?_, hfp⟩
      simp only [runNavOps, runNavOp, hr, Option.map_some]
      exact hgf

/-- C2 witness: a concrete run (N = 3, wraparound on, four requests) ends
with the selection below 3. -/
theorem c2_witness :
    ∃ gf, runNavOps true 3 gSel0 [NavOp.inc 1, NavOp.inc 5, NavOp.dec 2,
      NavOp.dec 1] = some gf ∧ gf.selection_ptr < 3 :=
  c2_navigation_position_invariant true 3
    [NavOp.inc 1, NavOp.inc 5, NavOp.dec 2, NavOp.dec 1] gSel0 ctxNoHooks
    rfl (by decide) (by decide)

/-- C1 (code evaluated at the failing input): with no driver bound, list
size 2, selection 0, wraparound disabled and step 1, the INCREMENT request
does not take the early-false path; it mutates the selection and then
dereferences the NULL `menu_driver_ctx` (undefined behaviour, `none`),
contradicting the no-crash / no-mutation / returns-false claim. -/
theorem c1_increment_null_ctx_crashes :
    navigation_increment false 2 1 gNullCtx = none := by decide

/-- C3 counterexample: with the scroll index holding 55 entries, a further
append does not fail — it stores the position at slot 55 and bumps the size
to 56, because the fixed bound `SCROLL_INDEX_SIZE = 2*(26+2)+1` is 57, not
55, and there is no capacity check at all. -/
theorem c3_counterexample :
    Option.map (fun r => (r.ret, r.st.scroll_index_size,
      r.st.scroll_index_list.get? 55)) (add_scroll_index gIndex55 (some 7)) =
      some (true, 56, some 7) ∧ (55 : Nat) ≠ SCROLL_INDEX_SIZE := by decide

/-- C3 amended: the fixed table has `SCROLL_INDEX_SIZE = 57` slots; for sizes
below 57 the append stores the position at index `size` and increments the
size by one; at size 57 (and beyond) the append performs an unchecked write
past the physical table (undefined behaviour, `none`) — there is no
`CapacityExceeded` failure; a NULL position pointer returns false without
mutation. -/
theorem c3_add_scroll_index_amended (g : MenuGlobals) (v : Nat)
    (hlen : g.scroll_index_list.length = SCROLL_INDEX_SIZE) :
    SCROLL_INDEX_SIZE = 57 ∧
    (g.scroll_index_size < 57 →
      add_scroll_index g (some v) = some ⟨true,
        { g with
          scroll_index_list := g.scroll_index_list.set g.scroll_index_size v,
          scroll_index_size := g.scroll_index_size + 1 }, []⟩) ∧
    (57 ≤ g.scroll_index_size → add_scroll_index g (some v) = none) ∧
    add_scroll_index g none = some ⟨false, g, []⟩ := by
  have hSIS : SCROLL_INDEX_SIZE = 57 := rfl
  refine ⟨hSIS, ?_, ?_, rfl⟩
  · intro h
    simp only [add_scroll_index]
    rw [if_pos (by omega : g.scroll_index_size < g.scroll_index_list.length)]
  · intro h
    simp only [add_scroll_index]
    rw [if_neg (by omega : ¬ g.scroll_index_size < g.scroll_index_list.length)]

/-- C3 witness: the amended statement at the concrete 55-entry state. -/
theorem c3_witness :
    SCROLL_INDEX_SIZE = 57 ∧
    (gIndex55.scroll_index_size < 57 →
      add_scroll_index gIndex55 (some 7) = some ⟨true,
        { gIndex55 with
          scroll_index_list :=
            gIndex55.scroll_index_list.set gIndex55.scroll_index_size 7,
          scroll_index_size := gIndex55.scroll_index_size + 1 }, []⟩) ∧
    (57 ≤ gIndex55.scroll_index_size →
      add_scroll_index gIndex55 (some 7) = none) ∧
    add_scroll_index gIndex55 none = some ⟨false, gIndex55, []⟩ :=
  c3_add_scroll_index_amended gIndex55 7 (by decide)

/-- C5: in the spec scenario (list size 100, table 0,10,…,90 of size 10,
selection 15) one ASCEND_ALPHABET lands on 20 and a following
DESCEND_ALPHABET lands on 10. -/
theorem c5_scenario :
    Option.map (fun r => r.st.selection_ptr)
      (navigation_ascend_alphabet 100 gScenario) = some 20 ∧
    Option.bind (navigation_ascend_alphabet 100 gScenario)
      (fun r => Option.map (fun r2 => r2.st.selection_ptr)
        (navigation_descend_alphabet r.st)) = some 10 := by decide

/-- C6 counterexample: SET_LAST on an empty list sets the selection to the
underflowed `size_t` value 2^64 - 1, not to 0. -/
theorem c6_counterexample :
    Option.map (fun r => r.st.selection_ptr) (navigation_set_last 0 gSel5) =
      some (2 ^ 64 - 1) ∧ (2 ^ 64 - 1 : Nat) ≠ 0 := by decide

/-- C6 amended: SET_LAST sets the selection to `listSize - 1` computed in
`size_t` arithmetic — `N - 1` when `N > 0`, but the underflowed value
`2^64 - 1` when the list is empty. -/
theorem c6_set_last_amended (N : Nat) (g : MenuGlobals) (c : MenuCtx)
    (hc : g.ctx = some c) :
    navigation_set_last N g = some ⟨true,
      { g with selection_ptr := sizeSub1 N },
      hookIf c.has_nav_last Hook.nav_last⟩ ∧
    (N = 0 → sizeSub1 N = 2 ^ 64 - 1) ∧
    (0 < N → sizeSub1 N = N - 1) := by
  refine ⟨?_, ?_, ?_⟩
  · simp only [navigation_set_last, hc]
  · intro h; subst h; rfl
  · intro h; rw [sizeSub1, if_neg (by omega : ¬ N = 0)]

/-- C6 witness: the amended statement at list size 3. -/
theorem c6_witness :
    navigation_set_last 3 gSel5 = some ⟨true,
      { gSel5 with selection_ptr := sizeSub1 3 },
      hookIf ctxNoHooks.has_nav_last Hook.nav_last⟩ ∧
    ((3 : Nat) = 0 → sizeSub1 3 = 2 ^ 64 - 1) ∧
    ((0 : Nat) < 3 → sizeSub1 3 = 3 - 1) :=
  c6_set_last_amended 3 gSel5 ctxNoHooks rfl

/-- C7 counterexample: with list size 0, a bound driver whose hooks are all
present, wraparound disabled, selection 0 and step 1, INCREMENT leaves the
selection unchanged but returns true and invokes the navigation-increment
hook — not the claimed false return with no hook invocation. -/
theorem c7_counterexample :
    Option.map (fun r => (r.ret, r.st.selection_ptr, r.hooks))
      (navigation_increment false 0 1 gAllHooks) =
      some (true, 0, [Hook.nav_inc]) ∧ true ≠ false := by decide

/-- C7 amended: with a bound driver, list size 0, wraparound disabled and a
selection below `SIZE_MAX` (so the underflowed guard `sel >= 0 - 1` is not
taken), INCREMENT with any step leaves the whole state unchanged but returns
true and invokes the driver's navigation-increment hook when present. -/
theorem c7_increment_empty_list_amended (s : Nat) (g : MenuGlobals)
    (c : MenuCtx) (hc : g.ctx = some c) (hsel : g.selection_ptr < SIZE_MAX) :
    navigation_increment false 0 s g =
      some ⟨true, g, hookIf c.has_nav_inc Hook.nav_inc⟩ := by
  have h1 : ¬ (sizeSub1 0 ≤ g.selection_ptr ∧ (false : Bool) = false) := by
    intro h
    exact absurd h.1 (Nat.not_le.mpr hsel)
  rw [navigation_increment, if_neg h1]
  simp [hc]

/-- C7 witness: the amended statement at step 4 on a concrete state. -/
theorem c7_witness :
    navigation_increment false 0 4 gAllHooks =
      some ⟨true, gAllHooks, hookIf ctxAllHooks.has_nav_inc Hook.nav_inc⟩ :=
  c7_increment_empty_list_amended 4 gAllHooks ctxAllHooks rfl (by decide)

/-- C8: with wraparound enabled and a bound driver, INCREMENT with step 1 at
position N-1 wraps the selection to 0, and DECREMENT with step 1 at position
0 wraps the selection to N-1. -/
theorem c8_wraparound (N : Nat) (gi gd : MenuGlobals) (ci cd : MenuCtx)
    (hN : 0 < N) (hNW : N < SIZE_T_MOD)
    (hci : gi.ctx = some ci) (hsi : gi.selection_ptr = N - 1)
    (hcd : gd.ctx = some cd) (hsd : gd.selection_ptr = 0) :
    (∃ r, navigation_increment true N 1 gi = some r ∧
      r.st.selection_ptr = 0) ∧
    (∃ r, navigation_decrement true N 1 gd = some r ∧
      r.st.selection_ptr = N - 1) := by
  constructor
  · have hg : ¬ (sizeSub1 N ≤ gi.selection_ptr ∧ (true : Bool) = false) := by
      intro h; cases h.2
    have hlt : ¬ ((gi.selection_ptr + 1) % SIZE_T_MOD < N) := by
      rw [hsi, (by omega : N - 1 + 1 = N), Nat.mod_eq_of_lt hNW]
      omega
    refine ⟨⟨true, { gi with selection_ptr := 0 },
      (hookIf ci.has_nav_set Hook.nav_set ++
        hookIf ci.has_nav_clear Hook.nav_clear) ++
        hookIf ci.has_nav_inc Hook.nav_inc⟩, ?_, rfl⟩
    rw [navigation_increment, if_neg hg]
    simp [navigation_clear, menu_driver_navigation_set, hci, if_neg hlt]
  · have hg : ¬ (gd.selection_ptr = 0 ∧ (true : Bool) = false) := by
      intro h; cases h.2
    have hs : ¬ (1 ≤ gd.selection_ptr) := by rw [hsd]; omega
    refine ⟨⟨true, { gd with selection_ptr := sizeSub1 N },
      hookIf cd.has_nav_set Hook.nav_set ++
        hookIf cd.has_nav_dec Hook.nav_dec⟩, ?_,
      (by rw [sizeSub1, if_neg (by omega : ¬ N = 0)] :
        sizeSub1 N = N - 1)⟩
    rw [navigation_decrement, if_neg hg]
    simp [menu_driver_navigation_set, hcd, if_neg hs]

/-- C8 witness: the wraparound behaviour at N = 4. -/
theorem c8_witness :
    (∃ r, navigation_increment true 4 1 gSel3 = some r ∧
      r.st.selection_ptr = 0) ∧
    (∃ r, navigation_decrement true 4 1 gSel0 = some r ∧
      r.st.selection_ptr = 4 - 1) :=
  c8_wraparound 4 gSel3 gSel0 ctxNoHooks ctxNoHooks (by decide) (by decide)
    rfl (by decide) rfl (by decide)

/-- C9: when pending-quit and pending-shutdown are both set and
pending-quick-menu is not, one `menu_driver_iterate` pass consumes only the
quit flag, returns the termination status false, and leaves the shutdown
flag still set. -/
theorem c9_iterate_quit_priority (cok : Bool) (ret : Int) (g : MenuGlobals)
    (hqm : g.pending_quick_menu = false) (hq : g.pending_quit = true)
    (hsd : g.pending_shutdown = true) :
    menu_driver_iterate cok ret g =
      (false, { g with pending_quit := false }) ∧
    ({ g with pending_quit := false } : MenuGlobals).pending_shutdown
      = true := by
  constructor
  · rw [menu_driver_iterate, if_neg (by simp [hqm]), if_pos hq]
  · exact hsd

/-- C9 witness: one pass on the concrete quit-and-shutdown state. -/
theorem c9_witness :
    menu_driver_iterate true 0 gQuitShutdown =
      (false, { gQuitShutdown with pending_quit := false }) ∧
    ({ gQuitShutdown with pending_quit := false } :
      MenuGlobals).pending_shutdown = true :=
  c9_iterate_quit_priority true 0 gQuitShutdown rfl rfl rfl

/-- C10: SET_SCROLL_ACCEL stores `v mod 2^32` (the `unsigned` truncation of
the `size_t` input), GET_SCROLL_ACCEL reads it back, neither touches the
selection or the scroll index, the round trip is exact exactly when
`v < 2^32`, and a NULL data pointer makes either request return false
without mutation. -/
theorem c10_scroll_accel_roundtrip (g : MenuGlobals) (v : Nat)
    (_hv : v < SIZE_T_MOD) :
    navigation_set_scroll_accel g (some v) =
      (true, { g with scroll_acceleration := v % UINT_MOD }) ∧
    navigation_get_scroll_accel
        { g with scroll_acceleration := v % UINT_MOD } false =
      (true, some (v % UINT_MOD),
        { g with scroll_acceleration := v % UINT_MOD }) ∧
    ({ g with scroll_acceleration := v % UINT_MOD } :
      MenuGlobals).selection_ptr = g.selection_ptr ∧
    ({ g with scroll_acceleration := v % UINT_MOD } :
      MenuGlobals).scroll_index_list = g.scroll_index_list ∧
    ({ g with scroll_acceleration := v % UINT_MOD } :
      MenuGlobals).scroll_index_size = g.scroll_index_size ∧
    (v % UINT_MOD = v ↔ v < UINT_MOD) ∧
    navigation_set_scroll_accel g none = (false, g) ∧
    navigation_get_scroll_accel g true = (false, none, g) := by
  refine ⟨rfl, rfl, rfl, rfl, rfl, ⟨?_, fun h => Nat.mod_eq_of_lt h⟩, rfl, rfl⟩
  intro h
  rw [← h]
  exact Nat.mod_lt _ (by decide)

/-- C10 witness: the round trip at v = 2^32 + 5, which truncates to 5. -/
theorem c10_witness :
    navigation_set_scroll_accel gSel0 (some (2 ^ 32 + 5)) =
      (true, { gSel0 with
        scroll_acceleration := (2 ^ 32 + 5) % UINT_MOD }) ∧
    navigation_get_scroll_accel
        { gSel0 with scroll_acceleration := (2 ^ 32 + 5) % UINT_MOD } false =
      (true, some ((2 ^ 32 + 5) % UINT_MOD),
        { gSel0 with scroll_acceleration := (2 ^ 32 + 5) % UINT_MOD }) ∧
    ({ gSel0 with scroll_acceleration := (2 ^ 32 + 5) % UINT_MOD } :
      MenuGlobals).selection_ptr = gSel0.selection_ptr ∧
    ({ gSel0 with scroll_acceleration := (2 ^ 32 + 5) % UINT_MOD } :
      MenuGlobals).scroll_index_list = gSel0.scroll_index_list ∧
    ({ gSel0 with scroll_acceleration := (2 ^ 32 + 5) % UINT_MOD } :
      MenuGlobals).scroll_index_size = gSel0.scroll_index_size ∧
    ((2 ^ 32 + 5) % UINT_MOD = 2 ^ 32 + 5 ↔ 2 ^ 32 + 5 < UINT_MOD) ∧
    navigation_set_scroll_accel gSel0 none = (false, gSel0) ∧
    navigation_get_scroll_accel gSel0 true = (false, none, gSel0) :=
  c10_scroll_accel_roundtrip gSel0 (2 ^ 32 + 5) (by norm_num [SIZE_T_MOD])

/-- Helper: when some table entry strictly above `sel` exists at the logical
end (`l[size-1] = w > sel`), the forward scan stops at an index `j` with
`j + 1` still inside the logical table and `l[j+1] > sel`. -/
theorem ascendScanAux_found (l : List Nat) (sel w size : Nat)
    (hlen : size ≤ l.length) (hw : l.get? (size - 1) = some w)
    (hsel : sel < w) :
    ∀ k i, i + k + 1 = size → 0 < k →
      ∃ j v, ascendScanAux l sel k i = some j ∧ j + 1 < size ∧
        l.get? (j + 1) = some v ∧ sel < v := by
  intro k
  induction k with
  | zero => intro i _ h0; omega
  | succ n ih =>
    intro i hik _
    have hi1 : i + 1 < l.length := by omega
    obtain ⟨v, hv⟩ : ∃ v, l.get? (i + 1) = some v :=
      ⟨l.get ⟨i + 1, hi1⟩, List.get?_eq_get hi1⟩
    simp only [ascendScanAux, hv]
    by_cases hvs : v ≤ sel
    · rw [if_pos hvs]
      have hn : 0 < n := by
        by_contra h0
        have hn0 : n = 0 := by omega
        subst hn0
        have he : i + 1 = size - 1 := by omega
        rw [he, hw] at hv
        injection hv with hv2
        omega
      exact ih (i + 1) (by omega) hn
    · rw [if_neg hvs]
      exact ⟨i, v, rfl, by omega, hv, by omega⟩

/-- C4 amended: for a non-decreasing scroll index table with at least two
entries whose last logical entry equals `N - 1` (list size `N > 0`, driver
bound, well-formed 57-slot array): an ASCEND_ALPHABET call never decreases
the selection, keeps it below `N`, is idempotent at `N - 1`, and preserves
the table and binding — so repeated calls are monotone until they stick at
`N - 1`.  (When the last entry is below `N - 1`, or the table has a single
entry, the C code instead reads the slot just past the logical table and can
move the selection backwards — see the counterexample.) -/
theorem c4_ascend_monotone_amended (N : Nat) (g : MenuGlobals) (c : MenuCtx)
    (hc : g.ctx = some c)
    (hlen : g.scroll_index_list.length = SCROLL_INDEX_SIZE)
    (hsz2 : 2 ≤ g.scroll_index_size)
    (hszle : g.scroll_index_size ≤ SCROLL_INDEX_SIZE)
    (hsorted : TableSorted g.scroll_index_list g.scroll_index_size)
    (hlast : g.scroll_index_list.get? (g.scroll_index_size - 1) =
      some (N - 1))
    (hN : 0 < N) (hsel : g.selection_ptr < N) :
    ∃ r, navigation_ascend_alphabet N g = some r ∧
      g.selection_ptr ≤ r.st.selection_ptr ∧
      r.st.selection_ptr < N ∧
      (g.selection_ptr = N - 1 → r.st.selection_ptr = N - 1) ∧
      r.st.scroll_index_list = g.scroll_index_list ∧
      r.st.scroll_index_size = g.scroll_index_size ∧
      r.st.ctx = some c := by
  have hsz0 : ¬ (g.scroll_index_size = 0) := by omega
  have hN1 : sizeSub1 N = N - 1 := by
    rw [sizeSub1, if_neg (by omega : ¬ N = 0)]
  by_cases he : g.selection_ptr = N - 1
  · have h2 : g.selection_ptr ≤ sizeSub1 N := by omega
    have h3 : sizeSub1 N < N := by omega
    have h4 : g.selection_ptr = N - 1 → sizeSub1 N = N - 1 := fun _ => hN1
    refine ⟨⟨true, { g with selection_ptr := sizeSub1 N },
      hookIf c.has_nav_ascend Hook.nav_ascend⟩, ?_, h2, h3, h4, rfl, rfl, hc⟩
    simp only [navigation_ascend_alphabet, if_neg hsz0, hlast, if_pos he, hc]
  · have hlt : g.selection_ptr < N - 1 := by omega
    obtain ⟨j, v, hscan, hj, hv, hvgt⟩ :=
      ascendScanAux_found g.scroll_index_list g.selection_ptr (N - 1)
        g.scroll_index_size (by rw [hlen]; exact hszle) hlast hlt
        (g.scroll_index_size - 1) 0 (by omega) (by omega)
    have hvle : v ≤ N - 1 := by
      by_cases hj2 : j + 1 = g.scroll_index_size - 1
      · rw [hj2, hlast] at hv
        injection hv with hv2
        omega
      · have hj3 : j + 1 < g.scroll_index_size - 1 := by omega
        have hs2 := hsorted (g.scroll_index_size - 1) (by omega) (j + 1) hj3
        rw [List.getD_eq_getD_get?, List.getD_eq_getD_get?, hv, hlast] at hs2
        simpa using hs2
    have hvN : ¬ (N ≤ v) := by omega
    have h2 : g.selection_ptr ≤ v := Nat.le_of_lt hvgt
    have h3 : v < N := by omega
    have h4 : g.selection_ptr = N - 1 → v = N - 1 := fun hh => absurd hh he
    refine ⟨⟨true, { g with selection_ptr := v },
      hookIf c.has_nav_ascend Hook.nav_ascend⟩, ?_, h2, h3, h4, rfl, rfl, hc⟩
    simp only [navigation_ascend_alphabet, if_neg hsz0, hlast, if_neg he,
      ascendScan, Nat.sub_zero, hscan, hv, if_neg hvN, hc]

/-- C4 counterexample: table [0] (one entry, last entry L = 0 ≤ N-1), list
size N = 2, selection 0 = L.  The first ASCEND_ALPHABET jumps to N-1 = 1 as
the claim says, but the next call — which the claim requires to stay at
N-1 — reads the stale slot past the logical table and moves the selection
back to 0. -/
theorem c4_counterexample :
    Option.map (fun r => r.st.selection_ptr)
      (navigation_ascend_alphabet 2 gTable1) = some 1 ∧
    Option.bind (navigation_ascend_alphabet 2 gTable1)
      (fun r => Option.map (fun r2 => r2.st.selection_ptr)
        (navigation_ascend_alphabet 2 r.st)) = some 0 ∧
    (0 : Nat) ≠ 1 := by decide

/-- C4 witness: the amended statement on the ten-entry table 0,10,…,90 with
list size 91 and selection 15. -/
theorem c4_witness :
    ∃ r, navigation_ascend_alphabet 91 gScenario = some r ∧
      gScenario.selection_ptr ≤ r.st.selection_ptr ∧
      r.st.selection_ptr < 91 ∧
      (gScenario.selection_ptr = 91 - 1 → r.st.selection_ptr = 91 - 1) ∧
      r.st.scroll_index_list = gScenario.scroll_index_list ∧
      r.st.scroll_index_size = gScenario.scroll_index_size ∧
      r.st.ctx = some ctxNoHooks :=
  c4_ascend_monotone_amended 91 gScenario ctxNoHooks rfl (by decide)
    (by decide) (by decide) (by decide) (by decide) (by decide) (by decide)
